import Mathlib

set_option maxHeartbeats 1000000

deriving instance DecidableEq for Except

/-!
Shallow embedding of the Wormhole bridge demo UI.

The repository contains two revisions of the same React component:
* `src/components/BridgeComponent.tsx` (the current revision, modelled by the
  unprefixed definitions below), and
* `src/unnamed/part_000` (an earlier revision of the same component; the
  definitions that differ there carry a `V0` suffix).

External effects (wallet RPC, contract calls, timers) are modelled by a
writer/exception monad `BM` that records the sequence of external actions the
component performs together with the result of the run.  The outcomes of the
external calls are supplied by an environment `Env`, one field per call site.
-/

/-- The `TransactionStatus` union type of BridgeComponent.tsx (the part_000
revision lacks `"warning"`, which only the Solana branch uses). -/
inductive TStatus where
  | idle
  | preparing
  | approving
  | transferring
  | confirming
  | success
  | error
  | warning
  deriving DecidableEq, Repr

/-- The JavaScript errors thrown or observed inside `performBridgeTransfer`.
In the source each error is an `Error` with an interpolated Chinese message;
here each is a constructor carrying the data the message interpolates.
`rpcError` stands for a wallet-RPC rejection carrying a numeric `code`
(the component inspects `error.code === 4902`); `libraryFailure` stands for
an arbitrary failure coming out of an external library call. -/
inductive Err where
  | providerNotFound
  | metaMaskMissing
  | cannotAddNetwork
  | rpcError (code : Nat)
  | insufficientNativeBalance (balance : Int)
  | invalidNttManagerAddress (addr : String)
  | nttManagerNotReady
  | invalidDecimalValue
  | tooManyDecimalPoints
  | fractionExceedsDecimals
  | insufficientTokenBalance (balance : Int)
  | libraryFailure (tag : Nat)
  deriving DecidableEq, Repr

/-- `error.code` as read by `switchNetwork` (only wallet RPC errors carry one). -/
def Err.code : Err → Option Nat
  | .rpcError c => some c
  | _ => none

/-- The externally visible actions performed by the component, in order:
wallet/provider reads, contract reads, submitted transactions, and timer
waits.  `submitTransfer` records the six positional call arguments plus the
transaction overrides (`value`, `gasLimit`). -/
inductive Act where
  | getNetwork
  | walletSwitchChain (chainId : Nat)
  | walletAddChain (chainId : Nat)
  | getGasPrice
  | getSignerAddress
  | getBalance (addr : String)
  | getCode (addr : String)
  | callInitStatus
  | callDecimals
  | callBalanceOf (addr : String)
  | callAllowance (owner spender : String)
  | submitApprove (spender : String) (amount : Int)
  | waitApprove
  | submitTransfer (amount : Int) (recipientChain : Nat) (recipient : String)
      (refundAddress : String) (shouldQueue : Bool)
      (transceiverInstructions : String) (value : Int) (gasLimit : Nat)
  | wait (ms : Nat)
  | waitTransfer
  | invokeOp (k : Nat)
  deriving DecidableEq, Repr

/-- The `nativeCurrency` record of a chain configuration. -/
structure NativeCurrency where
  name : String
  symbol : String
  decimals : Nat
  deriving DecidableEq, Repr

/-- One entry of `SUPPORTED_CHAINS` (tsx lines 46-104).  The optional
`isSolana` marker is `false` where the source omits it. -/
structure ChainConfig where
  chainId : Nat
  wormholeChainId : Nat
  name : String
  nttManager : String
  cctAddress : String
  rpc : String
  explorer : String
  nativeCurrency : NativeCurrency
  isSolana : Bool
  deriving DecidableEq, Repr

/-- `SUPPORTED_CHAINS["Arbitrum Sepolia"]` (tsx lines 47-60). -/
def arbitrumSepoliaConfig : ChainConfig :=
  ⟨421614, 10003, "Arbitrum Sepolia",
   "0x2D42B901dAf957F3d1949a53c7Eb37a8111AEbB8",
   "0x3784Ce665CA1AE8f26ae96589b917f8081E72fe7",
   "https://sepolia-rollup.arbitrum.io/rpc", "https://sepolia.arbiscan.io",
   ⟨"ETH", "ETH", 18⟩, false⟩

/-- `SUPPORTED_CHAINS["BSC Testnet"]` (tsx lines 61-74). -/
def bscTestnetConfig : ChainConfig :=
  ⟨97, 4, "BSC Testnet",
   "0x8290988FaBBCFF19737aa72d79680e659207368e",
   "0x6B4d90B36Fd734863d8937140546251db069839b",
   "https://bsc-testnet-rpc.publicnode.com", "https://testnet.bscscan.com",
   ⟨"BNB", "BNB", 18⟩, false⟩

/-- `SUPPORTED_CHAINS["Sepolia"]` (tsx lines 75-88). -/
def sepoliaConfig : ChainConfig :=
  ⟨11155111, 10002, "Sepolia",
   "0x388e36c3E48fDB2C7F90b522ee12dD4A55275B54",
   "0x971d048EF94DaD79427abdbc36BC2a2b2aED9687",
   "https://rpc.sepolia.org", "https://sepolia.etherscan.io",
   ⟨"ETH", "ETH", 18⟩, false⟩

/-- `SUPPORTED_CHAINS["Solana"]` (tsx lines 89-103, `isSolana: true`). -/
def solanaConfig : ChainConfig :=
  ⟨0, 1, "Solana",
   "NTtAGGyP6BjfxfCYbvi8ZVnGg2L8Dj68jm2DorciTBv",
   "FUDnkD5jC6T2YTw9zdTJ7VyP3koVy78xh7SpHMgYNqXz",
   "https://api.devnet.solana.com", "https://explorer.solana.com/?cluster=devnet",
   ⟨"SOL", "SOL", 9⟩, true⟩

/-- `WORMHOLE_CHAIN_ID_MAP` (tsx lines 107-120; part_000 lacks the final
`"Sepolia"` entry, which no claim depends on). -/
def WORMHOLE_CHAIN_ID_MAP : List (String × Nat) :=
  [("Ethereum", 2), ("Solana", 1), ("BNB Smart Chain", 4), ("BSC Testnet", 4),
   ("Avalanche", 6), ("Polygon", 5), ("Arbitrum", 23), ("Arbitrum Sepolia", 10003),
   ("Optimism", 24), ("Base", 30), ("Ethereum Sepolia", 10002), ("Sepolia", 10002)]

/-- tsx line 441: `WORMHOLE_CHAIN_ID_MAP[dstChainConfig.name] ||
dstChainConfig.wormholeChainId`.  JavaScript `||` falls through both on a
missing key and on a `0` value. -/
def wormholeIdOf (dst : ChainConfig) : Nat :=
  match WORMHOLE_CHAIN_ID_MAP.lookup dst.name with
  | some v => if v = 0 then dst.wormholeChainId else v
  | none => dst.wormholeChainId

namespace CROSS_CHAIN_CONSTANTS

/-- tsx line 124: the cross-chain fee in ether, as a decimal string. -/
def FEE : String := "0.005"

/-- tsx line 125. -/
def GAS_LIMIT : Nat := 900000

/-- tsx line 126 / part_000 line 97. -/
def TX_RETRY_COUNT : Nat := 3

end CROSS_CHAIN_CONSTANTS

/-! ### Models of the JavaScript / ethers string primitives -/

/-- JS `s.trim()`: strip leading and trailing whitespace. -/
def jsTrim (s : String) : String :=
  ⟨((s.data.dropWhile Char.isWhitespace).reverse.dropWhile Char.isWhitespace).reverse⟩

/-- JS `s.toLowerCase()` (character-by-character model). -/
def jsToLower (s : String) : String := ⟨s.data.map Char.toLower⟩

/-- JS `s.slice(0, n)`. -/
def jsSlice (s : String) (n : Nat) : String := ⟨s.data.take n⟩

/-- JS `s.replace(/^0x/, '')`: remove one leading lowercase `0x` if present. -/
def strip0x (s : String) : String :=
  match s.data with
  | '0' :: 'x' :: rest => ⟨rest⟩
  | _ => s

/-- Characters matched by the base58 class `[1-9A-HJ-NP-Za-km-z]`. -/
def isBase58Char (c : Char) : Bool :=
  ('1' ≤ c && c ≤ '9') || ('A' ≤ c && c ≤ 'H') || ('J' ≤ c && c ≤ 'N') ||
  ('P' ≤ c && c ≤ 'Z') || ('a' ≤ c && c ≤ 'k') || ('m' ≤ c && c ≤ 'z')

/-- JS `s.match(/^[1-9A-HJ-NP-Za-km-z]{32,44}$/) !== null`
(tsx line 410, the Solana address format check). -/
def matchesSolanaPattern (s : String) : Bool :=
  32 ≤ s.length && s.length ≤ 44 && s.data.all isBase58Char

/-- A hexadecimal digit character (either case). -/
def isHexChar (c : Char) : Bool :=
  ('0' ≤ c && c ≤ '9') || ('a' ≤ c && c ≤ 'f') || ('A' ≤ c && c ≤ 'F')

/-- Lowercase hex digit for a value below 16, as produced by ethers `hexlify`. -/
def hexDigit (n : Nat) : Char :=
  if n < 10 then Char.ofNat ('0'.toNat + n) else Char.ofNat ('a'.toNat + (n - 10))

/-- Two lowercase hex digits of one byte. -/
def byteToHex (b : Nat) : List Char := [hexDigit (b / 16), hexDigit (b % 16)]

/-- ethers `hexlify` on a byte array: `"0x"` followed by two lowercase hex
digits per byte. -/
def hexlify (bs : List Nat) : String :=
  ⟨'0' :: 'x' :: (bs.map byteToHex).flatten⟩

/-- UTF-8 bytes of a string (ethers `toUtf8Bytes`). -/
def utf8Bytes (s : String) : List Nat := s.toUTF8.toList.map (fun b => b.toNat)

/-! ### ethers `parseFixed` / `parseUnits` / `parseEther` -/

/-- Value of a digit string read in base 10 (`BigNumber.from` on digits). -/
def digitsToNat (l : List Char) : Nat :=
  l.foldl (fun acc c => acc * 10 + (c.toNat - '0'.toNat)) 0

/-- JS `value.split(".")` on a character list. -/
def splitOnDot : List Char → List (List Char)
  | [] => [[]]
  | c :: rest =>
    let r := splitOnDot rest
    if c = '.' then [] :: r
    else
      match r with
      | h :: t => (c :: h) :: t
      | [] => [[c]]

/-- ethers v5 `parseFixed(value, decimals)`: the value must match
`^-?[0-9.]+$`, contain at most one decimal point, and its fractional part must
not be longer than `decimals`; missing whole/fractional components count as
zero, and the result is `whole·10^decimals + fraction·10^(decimals-|fraction|)`
with the sign applied. -/
def parseFixed (value : String) (decimals : Nat) : Except Err Int :=
  let negative : Bool := value.data.head? = some '-'
  let body : List Char := if negative then value.data.drop 1 else value.data
  if body.isEmpty || !(body.all fun c => c.isDigit || c = '.') then
    Except.error Err.invalidDecimalValue
  else
    match splitOnDot body with
    | [whole] =>
      let wei : Nat := digitsToNat whole * 10 ^ decimals
      Except.ok (if negative then -(wei : Int) else (wei : Int))
    | [whole, fraction] =>
      if decimals < fraction.length then Except.error Err.fractionExceedsDecimals
      else
        let wei : Nat := digitsToNat whole * 10 ^ decimals +
          digitsToNat fraction * 10 ^ (decimals - fraction.length)
        Except.ok (if negative then -(wei : Int) else (wei : Int))
    | _ => Except.error Err.tooManyDecimalPoints

/-- ethers `parseUnits(value, decimals)`. -/
def parseUnits (value : String) (decimals : Nat) : Except Err Int :=
  parseFixed value decimals

/-- ethers `parseEther(value) = parseUnits(value, 18)`. -/
def parseEther (value : String) : Except Err Int :=
  parseUnits value 18

/-! ### Recipient-bytes preparation, both revisions -/

/-- tsx lines 273-278: strip an optional leading `0x`, lowercase, and prefix
24 zero hex characters. -/
def prepareRecipientAddress (address : String) : String :=
  let cleanAddress := jsToLower (strip0x address)
  "0x000000000000000000000000" ++ cleanAddress

/-- tsx lines 281-288: prefix 48 zero hex characters and append the first 16
characters of the (base58) Solana address unchanged. -/
def prepareSolanaAddress (solanaAddress : String) : String :=
  "0x000000000000000000000000000000000000000000000000" ++ jsSlice solanaAddress 16

/-- part_000 lines 242-246: `hexlify(arrayify(ethers.utils.id(address)))`.
`ethers.utils.id` is keccak-256 of the UTF-8 bytes of its argument; the hash
function itself lives in the ethers library, so it is a parameter here,
constrained in the theorems only by its output length (32 bytes). -/
def prepareRecipientAddressV0 (keccak256 : List Nat → List Nat)
    (address : String) : String :=
  hexlify (keccak256 (utf8Bytes address))

example : prepareRecipientAddress "0xAbC" = "0x000000000000000000000000abc" := by decide
example : prepareRecipientAddress "" = "0x000000000000000000000000" := by decide
example : prepareSolanaAddress "abcdefghijklmnopqrstuvwxyz" =
    "0x000000000000000000000000000000000000000000000000abcdefghijklmnop" := by decide
example : parseEther "0.005" = Except.ok 5000000000000000 := by decide
example : parseUnits "1.5" 2 = Except.ok 150 := by decide
example : parseUnits "1.5" 0 = Except.error Err.fractionExceedsDecimals := by decide
example : parseUnits "1.2.3" 2 = Except.error Err.tooManyDecimalPoints := by decide
example : parseUnits "-2" 1 = Except.ok (-20) := by decide
example : parseUnits "" 1 = Except.error Err.invalidDecimalValue := by decide
example : matchesSolanaPattern (String.mk (List.replicate 32 'z')) = true := by decide
example : matchesSolanaPattern "abc" = false := by decide
example : hexlify [0, 255, 16] = "0x00ff10" := by decide

/-! ### The effect monad: a writer of external actions plus exceptions -/

/-- A computation that performs a list of external actions (in order) and
either returns a value or throws a JavaScript error. -/
def BM (α : Type) : Type := List Act × Except Err α

/-- Sequencing: actions accumulate; a thrown error short-circuits. -/
def BM.bind {α β : Type} (x : BM α) (f : α → BM β) : BM β :=
  match x with
  | (tr, Except.ok a) => (tr ++ (f a).1, (f a).2)
  | (tr, Except.error e) => (tr, Except.error e)

instance : Monad BM where
  pure a := ([], Except.ok a)
  bind := BM.bind

/-- An awaited external call: one recorded action, result from the environment. -/
def callE {α : Type} (a : Act) (r : Except Err α) : BM α := ([a], r)

/-- `throw new Error(...)` in the component's own code (no external action). -/
def throwB {α : Type} (e : Err) : BM α := ([], Except.error e)

/-- A possibly-failing library computation that performs no external action
(e.g. `parseUnits`). -/
def liftE {α : Type} (r : Except Err α) : BM α := ([], r)

theorem BM.bind_eq {α β : Type} (x : BM α) (f : α → BM β) :
    (x >>= f) = BM.bind x f := rfl

theorem BM.pure_eq {α : Type} (a : α) : (pure a : BM α) = ([], Except.ok a) := rfl

theorem BM.bind_mk_ok {α β : Type} (tr : List Act) (a : α) (f : α → BM β) :
    BM.bind (tr, Except.ok a) f = (tr ++ (f a).1, (f a).2) := rfl

theorem BM.bind_mk_error {α β : Type} (tr : List Act) (e : Err) (f : α → BM β) :
    BM.bind (tr, Except.error e) f = (tr, Except.error e) := rfl

/-- The `retryOperation` helper (tsx lines 136-147 and part_000 lines 108-119,
identical in both revisions): try the operation; on failure, if retries
remain, wait 2000 ms and invoke it again with one fewer retry; otherwise
rethrow the last error.  The operation is a function of the invocation index
so that successive invocations may behave differently. -/
def retryOperation {α : Type} (operation : Nat → BM α) (retries : Nat) (k : Nat) : BM α :=
  match operation k with
  | (tr, Except.ok a) => (tr, Except.ok a)
  | (tr, Except.error e) =>
    match retries with
    | Nat.succ r =>
      match retryOperation operation r (k + 1) with
      | (tr2, res) => (tr ++ Act.wait 2000 :: tr2, res)
    | 0 => (tr, Except.error e)

/-! ### The environment of external outcomes and the component inputs -/

/-- Outcome of every external call site reachable in one run of
`performBridgeTransfer`, plus the two predicates the run branches on that are
computed by the ethers library (`isAddress`).  `transferResult k` is the
outcome of the `k`-th (0-based) submission attempt of the bridge `transfer`
call inside the retry wrapper. -/
structure Env where
  hasProvider : Bool
  hasEthereum : Bool
  networkChainId : Except Err Nat
  switchChainResult : Except Err Unit
  addChainResult : Except Err Unit
  gasPriceResult : Except Err Int
  signerAddressResult : Except Err String
  ethBalanceResult : Except Err Int
  codeResult : Except Err String
  initStatusResult : Except Err Bool
  decimalsResult : Except Err Nat
  tokenBalanceResult : Except Err Int
  allowanceResult : Except Err Int
  approveResult : Except Err String
  approveWaitResult : Except Err Unit
  transferResult : Nat → Except Err String
  transferWaitResult : Except Err Nat
  isAddressFn : String → Bool

/-- The component state read by `performBridgeTransfer`: the four form fields,
wallet connection, and the configuration records selected by the two
`useEffect` hooks. -/
structure Inp where
  sourceChain : String
  targetChain : String
  amount : String
  destinationAddress : String
  walletConnected : Bool
  walletAddress : String
  srcChainConfig : Option ChainConfig
  dstChainConfig : Option ChainConfig
  status : TStatus

/-- Result of one run: the final `status`, the ordered external actions, and
the error that reached the outer catch handler, if any. -/
structure RunOut where
  status : TStatus
  trace : List Act
  thrown : Option Err
  deriving DecidableEq, Repr

/-! ### The transfer orchestration, stage by stage (tsx lines 229-494) -/

/-- `switchNetwork` (tsx lines 230-270): requires `window.ethereum`; requests
`wallet_switchEthereumChain`; on a rejection with `code === 4902` requests
`wallet_addEthereumChain` (failure of which becomes the "cannot add network"
error); any other rejection is rethrown. -/
def switchNetwork (env : Env) (chainId : Nat) : BM Unit :=
  if env.hasEthereum = false then throwB Err.metaMaskMissing
  else
    match env.switchChainResult with
    | Except.ok _ => (([Act.walletSwitchChain chainId], Except.ok ()) : BM Unit)
    | Except.error e =>
      if e.code = some 4902 then
        match env.addChainResult with
        | Except.ok _ =>
          (([Act.walletSwitchChain chainId, Act.walletAddChain chainId], Except.ok ()) : BM Unit)
        | Except.error _ =>
          (([Act.walletSwitchChain chainId, Act.walletAddChain chainId],
            Except.error Err.cannotAddNetwork) : BM Unit)
      else (([Act.walletSwitchChain chainId], Except.error e) : BM Unit)

/-- tsx lines 348-357: the inner try/catch around `nttManager.initialized()`.
A falsy result throws locally, but the surrounding catch swallows every
failure (call rejection or the local throw), logs a warning, and continues. -/
def checkManagerReady (env : Env) : BM Unit :=
  let attempt : BM Unit :=
    BM.bind (callE Act.callInitStatus env.initStatusResult) (fun b =>
      if b = false then throwB Err.nttManagerNotReady else pure ())
  match attempt with
  | (tr, Except.ok _) => (tr, Except.ok ())
  | (tr, Except.error _) => (tr, Except.ok ())

/-- tsx lines 438-487: compute the destination Wormhole chain id, submit the
`transfer` call inside `retryOperation`, wait for the receipt, and report
success or failure from `receipt.status`. -/
def submitAndConfirm (env : Env) (dst : ChainConfig) (amountWei : Int)
    (bytes32Recipient : String) : BM TStatus := do
  let destinationWormholeChainId := wormholeIdOf dst
  let transceiverInstructions := "0x01000100"
  -- setStatus("transferring")
  let _transferTx ← retryOperation (fun k =>
      BM.bind (liftE (parseEther CROSS_CHAIN_CONSTANTS.FEE)) (fun fee =>
        callE (Act.submitTransfer amountWei destinationWormholeChainId
            bytes32Recipient bytes32Recipient false transceiverInstructions
            fee CROSS_CHAIN_CONSTANTS.GAS_LIMIT)
          (env.transferResult k)))
    CROSS_CHAIN_CONSTANTS.TX_RETRY_COUNT 0
  -- setTxHash(...); setStatus("confirming")
  let receiptStatus ← callE Act.waitTransfer env.transferWaitResult
  if receiptStatus = 1 then pure TStatus.success else pure TStatus.error

/-- tsx lines 394-436: pick the recipient (trimmed destination field, else the
wallet address), validate it per destination chain, and produce the bytes32
recipient.  The three early `return`s (empty Solana address → "warning",
failed Solana pattern → "error", failed `isAddress` → "error") end the run
without reaching the submission stage. -/
def prepareAndSubmit (env : Env) (inp : Inp) (dst : ChainConfig)
    (address : String) (amountWei : Int) : BM TStatus :=
  let recipientAddress :=
    if jsTrim inp.destinationAddress ≠ "" then jsTrim inp.destinationAddress else address
  if dst.isSolana then
    if jsTrim inp.destinationAddress = "" then
      pure TStatus.warning
    else if inp.destinationAddress.length < 32 ∨
        matchesSolanaPattern inp.destinationAddress = false then
      pure TStatus.error
    else
      submitAndConfirm env dst amountWei (prepareSolanaAddress inp.destinationAddress)
  else
    if jsTrim inp.destinationAddress ≠ "" ∧ env.isAddressFn inp.destinationAddress = false then
      pure TStatus.error
    else
      submitAndConfirm env dst amountWei (prepareRecipientAddress recipientAddress)

/-- tsx lines 359-392: read the token decimals, parse the entered amount,
check the token balance, read the allowance, and submit an approval (and wait
for it) only when the allowance is below the parsed amount. -/
def tokenSteps (env : Env) (inp : Inp) (src dst : ChainConfig)
    (address : String) : BM TStatus := do
  let decimals ← callE Act.callDecimals env.decimalsResult
  let amountWei ← liftE (parseUnits inp.amount decimals)
  let cctBalance ← callE (Act.callBalanceOf address) env.tokenBalanceResult
  let _balanceChecked ←
    (if cctBalance < amountWei then
      (throwB (Err.insufficientTokenBalance cctBalance) : BM Unit)
    else pure ())
  let currentAllowance ← callE (Act.callAllowance address src.nttManager) env.allowanceResult
  let _approvalDone ←
    (if currentAllowance < amountWei then do
      -- setStatus("approving")
      let _approveTx ← callE (Act.submitApprove src.nttManager amountWei) env.approveResult
      let _receipt ← callE Act.waitApprove env.approveWaitResult
      (pure () : BM Unit)
    else pure ())
  prepareAndSubmit env inp dst address amountWei

/-- tsx lines 297-357 up to the token stage: provider check, network read and
conditional switch, gas price read, wallet address, native balance check
against `parseEther(FEE)`, contract code check, and the swallowed
initialization check. -/
def bridgeBody (env : Env) (inp : Inp) (src dst : ChainConfig) : BM TStatus := do
  -- setStatus("preparing"); setStatusMessage(...); setTxHash("")
  let _providerChecked ←
    (if env.hasProvider = false then (throwB Err.providerNotFound : BM Unit) else pure ())
  let networkChainId ← callE Act.getNetwork env.networkChainId
  let _switched ←
    (if networkChainId ≠ src.chainId then switchNetwork env src.chainId else pure ())
  let _gasPrice ← callE Act.getGasPrice env.gasPriceResult
  let address ←
    (if inp.walletAddress ≠ "" then pure inp.walletAddress
    else callE Act.getSignerAddress env.signerAddressResult)
  let ethBalance ← callE (Act.getBalance address) env.ethBalanceResult
  let requiredEth ← liftE (parseEther CROSS_CHAIN_CONSTANTS.FEE)
  let _ethChecked ←
    (if ethBalance < requiredEth then
      (throwB (Err.insufficientNativeBalance ethBalance) : BM Unit)
    else pure ())
  let nttManagerCode ← callE (Act.getCode src.nttManager) env.codeResult
  let _codeChecked ←
    (if nttManagerCode.length ≤ 2 then
      (throwB (Err.invalidNttManagerAddress src.nttManager) : BM Unit)
    else pure ())
  let _readyChecked ← checkManagerReady env
  tokenSteps env inp src dst address

/-- The outer try/catch (tsx lines 489-493): a normal completion keeps the
status the body ended with; a thrown error becomes status `"error"` with the
error surfaced in the single status message. -/
def runOutOf : BM TStatus → RunOut
  | (tr, Except.ok st) => ⟨st, tr, none⟩
  | (tr, Except.error e) => ⟨TStatus.error, tr, some e⟩

/-- `performBridgeTransfer` (tsx lines 291-494).  The opening guard (line 292)
returns with only the status message changed when any of the six fields is
falsy; otherwise the body runs under the outer try/catch. -/
def performBridgeTransfer (env : Env) (inp : Inp) : RunOut :=
  match inp.srcChainConfig, inp.dstChainConfig with
  | some src, some dst =>
    if inp.sourceChain = "" ∨ inp.targetChain = "" ∨ inp.amount = "" ∨
        inp.walletConnected = false then
      ⟨inp.status, [], none⟩
    else runOutOf (bridgeBody env inp src dst)
  | _, _ => ⟨inp.status, [], none⟩

/-- `isTransferDisabled` (tsx lines 540-541 and part_000 lines 453-454):
the transfer button is disabled when any form field is falsy, the wallet is
disconnected, or a transfer is in one of the four in-flight statuses. -/
def isTransferDisabled (sourceChain targetChain amount : String)
    (wallet : Bool) (status : TStatus) : Bool :=
  sourceChain = "" || targetChain = "" || amount = "" || !wallet ||
  status = TStatus.preparing || status = TStatus.approving ||
  status = TStatus.transferring || status = TStatus.confirming

/-! ### Trace predicates and helper lemmas -/

/-- The action is an approval submission. -/
def isApproveAct : Act → Bool
  | Act.submitApprove _ _ => true
  | _ => false

/-- The action is a bridge `transfer` submission. -/
def isTransferAct : Act → Bool
  | Act.submitTransfer _ _ _ _ _ _ _ _ => true
  | _ => false

/-- A bare asynchronous operation whose `k`-th invocation performs one
recorded invocation action and yields `results k` (used to state what
`retryOperation` does with an arbitrary operation). -/
def opOf {α : Type} (results : Nat → Except Err α) : Nat → BM α :=
  fun k => ([Act.invokeOp k], results k)

/-- Number of operation invocations recorded in a trace. -/
def countInvoke (tr : List Act) : Nat :=
  tr.countP (fun a => match a with | Act.invokeOp _ => true | _ => false)

/-- Every action of the computation satisfies `P`. -/
def TraceAll (P : Act → Prop) {α : Type} (x : BM α) : Prop := ∀ a ∈ x.1, P a

theorem traceAll_pure {P : Act → Prop} {α : Type} (a : α) :
    TraceAll P (pure a : BM α) := by
  intro x hx
  simp [BM.pure_eq] at hx

theorem traceAll_throwB {P : Act → Prop} {α : Type} (e : Err) :
    TraceAll P (throwB e : BM α) := by
  intro x hx
  simp [throwB] at hx

theorem traceAll_liftE {P : Act → Prop} {α : Type} (r : Except Err α) :
    TraceAll P (liftE r) := by
  intro x hx
  simp [liftE] at hx

theorem traceAll_callE {P : Act → Prop} {α : Type} (a : Act) (r : Except Err α)
    (h : P a) : TraceAll P (callE a r) := by
  intro x hx
  simp [callE] at hx
  exact hx ▸ h

theorem traceAll_bind {P : Act → Prop} {α β : Type} {x : BM α} {f : α → BM β}
    (hx : TraceAll P x) (hf : ∀ b, x.2 = Except.ok b → TraceAll P (f b)) :
    TraceAll P (BM.bind x f) := by
  obtain ⟨tr, res⟩ := x
  cases res with
  | ok a =>
    intro c hc
    rcases List.mem_append.1 hc with h | h
    · exact hx c h
    · exact hf a rfl c h
  | error e => exact hx

theorem traceAll_seq {P : Act → Prop} {α β : Type} {x : BM α} {f : α → BM β}
    (hx : TraceAll P x) (hf : ∀ b, x.2 = Except.ok b → TraceAll P (f b)) :
    TraceAll P (x >>= f) :=
  traceAll_bind hx hf

theorem traceAll_ite {P : Act → Prop} {α : Type} {c : Prop} [Decidable c]
    {x y : BM α} (hx : TraceAll P x) (hy : TraceAll P y) :
    TraceAll P (if c then x else y) := by
  split
  · exact hx
  · exact hy

theorem traceAll_retryOperation {P : Act → Prop} {α : Type}
    {operation : Nat → BM α} (h : ∀ k, TraceAll P (operation k))
    (hw : P (Act.wait 2000)) (retries k : Nat) :
    TraceAll P (retryOperation operation retries k) := by
  induction retries generalizing k with
  | zero =>
    intro c hc
    rw [retryOperation] at hc
    rcases hop : operation k with ⟨tr, res⟩
    rw [hop] at hc
    cases res with
    | ok a =>
      simp only [] at hc
      exact h k c (by rw [hop]; exact hc)
    | error e =>
      simp only [] at hc
      exact h k c (by rw [hop]; exact hc)
  | succ r ih =>
    intro c hc
    rw [retryOperation] at hc
    rcases hop : operation k with ⟨tr, res⟩
    rw [hop] at hc
    cases res with
    | ok a =>
      simp only [] at hc
      exact h k c (by rw [hop]; exact hc)
    | error e =>
      simp only [] at hc
      rcases hrec : retryOperation operation r (k + 1) with ⟨tr2, res2⟩
      rw [hrec] at hc
      simp only [List.mem_append, List.mem_cons] at hc
      rcases hc with hc | hc | hc
      · exact h k c (by rw [hop]; exact hc)
      · exact hc ▸ hw
      · exact ih (k + 1) c (by rw [hrec]; exact hc)

/-- A member of the trace of the first computation is in the trace of the
sequence, whatever the continuation does. -/
theorem mem_trace_bind_left {α β : Type} {x : BM α} {f : α → BM β} {a : Act}
    (h : a ∈ x.1) : a ∈ (BM.bind x f).1 := by
  obtain ⟨tr, res⟩ := x
  cases res with
  | ok b => exact List.mem_append_left _ h
  | error e => exact h

/-! ### Claim theorems -/

/-- C8: at most one transfer is in flight at a time.  In every UI state whose
status is "preparing", "approving", "transferring" or "confirming", the
transfer button is disabled (`isTransferDisabled` is true), whatever the form
fields and wallet state, so `performBridgeTransfer` cannot be started again
while a transfer is in progress. -/
theorem inflight_status_disables_button (sourceChain targetChain amount : String)
    (wallet : Bool) (status : TStatus)
    (h : status = TStatus.preparing ∨ status = TStatus.approving ∨
      status = TStatus.transferring ∨ status = TStatus.confirming) :
    isTransferDisabled sourceChain targetChain amount wallet status = true := by
  rcases h with h | h | h | h <;> subst h <;> simp [isTransferDisabled]

/-- Witness for C8 at a concrete in-flight state. -/
theorem inflight_status_disables_button_witness :
    isTransferDisabled "BSC Testnet" "Arbitrum Sepolia" "1" true TStatus.transferring = true :=
  inflight_status_disables_button "BSC Testnet" "Arbitrum Sepolia" "1" true
    TStatus.transferring (Or.inr (Or.inr (Or.inl rfl)))

/-- C2: with the configured `TX_RETRY_COUNT = 3`, if every invocation of the
operation fails, `retryOperation` invokes it exactly `1 + 3 = 4` times with a
recorded 2000 ms wait between consecutive invocations and propagates the
final (fourth) error; if an invocation succeeds, its result is returned and
no further invocation occurs (the trace holds exactly `j + 1` invocations
when the first success is the `j`-th). -/
theorem retryOperation_spec {α : Type} (results : Nat → Except Err α) :
    ((∀ k, ∃ e, results k = Except.error e) →
      retryOperation (opOf results) CROSS_CHAIN_CONSTANTS.TX_RETRY_COUNT 0 =
        ([Act.invokeOp 0, Act.wait 2000, Act.invokeOp 1, Act.wait 2000,
          Act.invokeOp 2, Act.wait 2000, Act.invokeOp 3], results 3)) ∧
    (∀ (j : Nat) (a : α), j ≤ CROSS_CHAIN_CONSTANTS.TX_RETRY_COUNT →
      results j = Except.ok a →
      (∀ i, i < j → ∃ e, results i = Except.error e) →
      countInvoke (retryOperation (opOf results) CROSS_CHAIN_CONSTANTS.TX_RETRY_COUNT 0).1 = j + 1 ∧
      (retryOperation (opOf results) CROSS_CHAIN_CONSTANTS.TX_RETRY_COUNT 0).2 = Except.ok a) := by
  constructor
  · intro h
    obtain ⟨e0, h0⟩ := h 0
    obtain ⟨e1, h1⟩ := h 1
    obtain ⟨e2, h2⟩ := h 2
    obtain ⟨e3, h3⟩ := h 3
    simp [CROSS_CHAIN_CONSTANTS.TX_RETRY_COUNT, retryOperation, opOf, h0, h1, h2, h3]
  · intro j a hj ha hprev
    simp only [CROSS_CHAIN_CONSTANTS.TX_RETRY_COUNT] at hj ⊢
    interval_cases j
    · refine ⟨?_, ?_⟩ <;>
        simp [retryOperation, opOf, ha, countInvoke]
    · obtain ⟨e0, h0⟩ := hprev 0 (by omega)
      refine ⟨?_, ?_⟩ <;>
        simp [retryOperation, opOf, ha, h0, countInvoke]
    · obtain ⟨e0, h0⟩ := hprev 0 (by omega)
      obtain ⟨e1, h1⟩ := hprev 1 (by omega)
      refine ⟨?_, ?_⟩ <;>
        simp [retryOperation, opOf, ha, h0, h1, countInvoke]
    · obtain ⟨e0, h0⟩ := hprev 0 (by omega)
      obtain ⟨e1, h1⟩ := hprev 1 (by omega)
      obtain ⟨e2, h2⟩ := hprev 2 (by omega)
      refine ⟨?_, ?_⟩ <;>
        simp [retryOperation, opOf, ha, h0, h1, h2, countInvoke]

/-- Witness for C2: the operation succeeds on its first invocation. -/
theorem retryOperation_spec_witness :
    countInvoke (retryOperation (opOf (fun _ => Except.ok (0 : Nat)))
        CROSS_CHAIN_CONSTANTS.TX_RETRY_COUNT 0).1 = 0 + 1 ∧
    (retryOperation (opOf (fun _ => Except.ok (0 : Nat)))
        CROSS_CHAIN_CONSTANTS.TX_RETRY_COUNT 0).2 = Except.ok 0 :=
  (retryOperation_spec (fun _ => Except.ok (0 : Nat))).2 0 0 (by decide) rfl
    (fun i hi => absurd hi (Nat.not_lt_zero i))

/-- Length of an ethers `hexlify` result: 2 for the `0x` prefix plus two hex
characters per byte. -/
theorem hexlify_length (bs : List Nat) : (hexlify bs).length = 2 + 2 * bs.length := by
  induction bs with
  | nil => rfl
  | cons b t ih =>
    simp [hexlify, byteToHex, String.length] at ih ⊢
    omega

/-- C1 is false as stated: the two revisions of `prepareRecipientAddress` do
not agree on every address string.  At the empty address the tsx revision
(zero-padding) returns a 26-character string while the part_000 revision
(hash of the address string) returns a 66-character string, for every
32-byte-valued hash function. -/
theorem recipientAddress_revisions_agree_false :
    ¬ (∀ keccak256 : List Nat → List Nat, (∀ bs, (keccak256 bs).length = 32) →
        ∀ a : String, prepareRecipientAddress a = prepareRecipientAddressV0 keccak256 a) := by
  intro h
  have hone := h (fun _ => List.replicate 32 0) (fun bs => by simp) ""
  have h26 : (prepareRecipientAddress "").length = 26 := by decide
  have h66 : (prepareRecipientAddressV0 (fun _ => List.replicate 32 0) "").length = 66 := by
    decide
  rw [hone] at h26
  rw [h26] at h66
  exact absurd h66 (by decide)

/-- C1 amended: the two revisions of the recipient-bytes preparation disagree
rather than agree.  For every 32-byte-valued hash function and every address
string whose 0x-stripped lowercased form is not exactly 40 characters long,
the padded bytes32 string of the tsx revision and the 32-byte hash hex string
of the part_000 revision have different lengths, hence differ.  (On cleaned
addresses of exactly 40 characters the outputs could only coincide if the
hash happened to begin with twelve zero bytes.) -/
theorem recipientAddress_revisions_differ (keccak256 : List Nat → List Nat)
    (h32 : ∀ bs, (keccak256 bs).length = 32) (a : String)
    (hlen : (jsToLower (strip0x a)).length ≠ 40) :
    prepareRecipientAddress a ≠ prepareRecipientAddressV0 keccak256 a := by
  intro h
  have hlit : ("0x000000000000000000000000" : String).length = 26 := by decide
  have h1 : (prepareRecipientAddress a).length =
      26 + (jsToLower (strip0x a)).length := by
    simp [prepareRecipientAddress, String.length_append, hlit]
  have h2 : (prepareRecipientAddressV0 keccak256 a).length = 66 := by
    simp [prepareRecipientAddressV0, hexlify_length, h32]
  rw [h] at h1
  rw [h2] at h1
  omega

/-- Witness for the amended C1 at the empty address. -/
theorem recipientAddress_revisions_differ_witness :
    prepareRecipientAddress "" ≠ prepareRecipientAddressV0 (fun _ => List.replicate 32 0) "" :=
  recipientAddress_revisions_differ (fun _ => List.replicate 32 0)
    (fun bs => by simp) "" (by decide)

/-- The Solana-branch format check of tsx lines 410-414 accepts the address
(the transfer is not rejected): `!(addr.length < 32 || !addr.match(base58 regex))`. -/
def solanaCheckAccepts (s : String) : Bool :=
  !(s.length < 32 || !(matchesSolanaPattern s))

/-- The string is `"0x"` followed by exactly 64 hex digits (a well-formed
bytes32 hexadecimal value). -/
def isBytes32Hex (s : String) : Bool :=
  match s.data with
  | c1 :: c2 :: rest => c1 = '0' && c2 = 'x' && rest.length = 64 && rest.all isHexChar
  | _ => false

/-- C10 is false in its "in particular" part: an address consisting of 32 `z`
characters passes the Solana format check, yet `prepareSolanaAddress` embeds
its first 16 characters verbatim, so the result contains `z` and is not a
well-formed hexadecimal bytes32 string. -/
theorem prepareSolanaAddress_hex_false :
    ¬ (∀ a : String, solanaCheckAccepts a = true →
        isBytes32Hex (prepareSolanaAddress a) = true) := by
  intro h
  have hz := h ⟨List.replicate 32 'z'⟩ (by decide)
  exact absurd hz (by decide)

/-- Helper: string append concatenates the underlying character lists. -/
theorem string_data_append (s t : String) : (s ++ t).data = s.data ++ t.data :=
  String.data_append s t

/-- C10 amended: for every address accepted by the Solana format check,
`prepareSolanaAddress` returns `"0x"`, 48 zero characters, then the first 16
characters of the address unchanged — a 66-character string — but that
string is a well-formed bytes32 hex value if and only if those 16 embedded
characters happen to be hex digits themselves. -/
theorem prepareSolanaAddress_shape (a : String) (h : solanaCheckAccepts a = true) :
    prepareSolanaAddress a =
      "0x000000000000000000000000000000000000000000000000" ++ jsSlice a 16 ∧
    (prepareSolanaAddress a).length = 66 ∧
    (isBytes32Hex (prepareSolanaAddress a) = true ↔
      (jsSlice a 16).data.all isHexChar = true) := by
  have hdl : a.length = a.data.length := rfl
  have h32 : 32 ≤ a.data.length := by
    rw [solanaCheckAccepts, Bool.not_eq_true', Bool.or_eq_false_iff] at h
    have hlt := of_decide_eq_false h.1
    omega
  have htake : (a.data.take 16).length = 16 := by
    rw [List.length_take]
    omega
  have hdata : (prepareSolanaAddress a).data =
      '0' :: 'x' :: (List.replicate 48 '0' ++ a.data.take 16) := by
    have hlit : ("0x000000000000000000000000000000000000000000000000" : String).data =
        '0' :: 'x' :: List.replicate 48 '0' := by decide
    show (("0x000000000000000000000000000000000000000000000000" : String) ++
      jsSlice a 16).data = _
    rw [string_data_append, hlit, jsSlice]
    simp
  have hrep : (List.replicate 48 '0').all isHexChar = true := by decide
  have h0 : isHexChar '0' = true := by decide
  refine ⟨rfl, ?_, ?_⟩
  · show (prepareSolanaAddress a).data.length = 66
    rw [hdata]
    simp [htake]
  · unfold isBytes32Hex
    rw [hdata]
    simp [htake, hrep, h0, List.all_append, jsSlice]

/-- Witness for the amended C10 at an accepted all-`a` address (whose first 16
characters are hex digits, so the equivalence yields a well-formed result). -/
theorem prepareSolanaAddress_shape_witness :
    solanaCheckAccepts ⟨List.replicate 32 'a'⟩ = true ∧
    (prepareSolanaAddress ⟨List.replicate 32 'a'⟩ =
      "0x000000000000000000000000000000000000000000000000" ++
        jsSlice ⟨List.replicate 32 'a'⟩ 16 ∧
     (prepareSolanaAddress ⟨List.replicate 32 'a'⟩).length = 66 ∧
     (isBytes32Hex (prepareSolanaAddress ⟨List.replicate 32 'a'⟩) = true ↔
       (jsSlice ⟨List.replicate 32 'a'⟩ 16).data.all isHexChar = true)) :=
  ⟨by decide, prepareSolanaAddress_shape ⟨List.replicate 32 'a'⟩ (by decide)⟩

/-- The configured fee string parses to 0.005 ether in wei. -/
theorem parseEther_FEE : parseEther CROSS_CHAIN_CONSTANTS.FEE = Except.ok 5000000000000000 := by
  decide

/-- The swallowed initialization check performs exactly one call and always
succeeds, whatever the call returned (tsx lines 348-357). -/
theorem checkManagerReady_eq (env : Env) :
    checkManagerReady env = (([Act.callInitStatus], Except.ok ()) : BM Unit) := by
  unfold checkManagerReady
  cases h : env.initStatusResult with
  | ok b => cases b <;> simp [h, callE, BM.bind, throwB, BM.pure_eq]
  | error e => simp [h, callE, BM.bind]

theorem runOutOf_trace (x : BM TStatus) : (runOutOf x).trace = x.1 := by
  obtain ⟨tr, res⟩ := x
  cases res <;> rfl

/-- With the pre-token stages succeeding (provider present, network already
correct, gas price and balance reads succeeding, the wallet address cached,
enough native balance, contract code present), the body is the five probe
actions followed by the token stage. -/
theorem bridgeBody_pinned (env : Env) (inp : Inp) (src dst : ChainConfig)
    (gp : Int) (bal : Int) (code : String)
    (hp : env.hasProvider = true)
    (hn : env.networkChainId = Except.ok src.chainId)
    (hg : env.gasPriceResult = Except.ok gp)
    (hw : inp.walletAddress ≠ "")
    (hb : env.ethBalanceResult = Except.ok bal)
    (hbfee : ¬ bal < 5000000000000000)
    (hc : env.codeResult = Except.ok code)
    (hclen : ¬ code.length ≤ 2) :
    bridgeBody env inp src dst =
      ([Act.getNetwork, Act.getGasPrice, Act.getBalance inp.walletAddress,
        Act.getCode src.nttManager, Act.callInitStatus] ++
          (tokenSteps env inp src dst inp.walletAddress).1,
       (tokenSteps env inp src dst inp.walletAddress).2) := by
  unfold bridgeBody
  simp [BM.bind_eq, BM.bind, callE, liftE, throwB, BM.pure_eq, checkManagerReady_eq,
    parseEther_FEE, hp, hn, hg, hw, hb, hbfee, hc, hclen]

/-- `performBridgeTransfer` under the same pins, as a `RunOut`. -/
theorem performBridgeTransfer_pinned (env : Env) (inp : Inp) (src dst : ChainConfig)
    (gp : Int) (bal : Int) (code : String)
    (hsrc : inp.srcChainConfig = some src) (hdst : inp.dstChainConfig = some dst)
    (h1 : inp.sourceChain ≠ "") (h2 : inp.targetChain ≠ "") (h3 : inp.amount ≠ "")
    (h4 : inp.walletConnected = true)
    (hp : env.hasProvider = true)
    (hn : env.networkChainId = Except.ok src.chainId)
    (hg : env.gasPriceResult = Except.ok gp)
    (hw : inp.walletAddress ≠ "")
    (hb : env.ethBalanceResult = Except.ok bal)
    (hbfee : ¬ bal < 5000000000000000)
    (hc : env.codeResult = Except.ok code)
    (hclen : ¬ code.length ≤ 2) :
    performBridgeTransfer env inp =
      runOutOf ([Act.getNetwork, Act.getGasPrice, Act.getBalance inp.walletAddress,
        Act.getCode src.nttManager, Act.callInitStatus] ++
          (tokenSteps env inp src dst inp.walletAddress).1,
        (tokenSteps env inp src dst inp.walletAddress).2) := by
  unfold performBridgeTransfer
  rw [hsrc, hdst]
  simp only []
  rw [if_neg (by simp [h1, h2, h3, h4])]
  rw [bridgeBody_pinned env inp src dst gp bal code hp hn hg hw hb hbfee hc hclen]

/-- With the token reads succeeding, enough token balance, and the allowance
below the parsed amount, the token stage approves (and awaits the approval)
before the recipient stage. -/
theorem tokenSteps_pinned_approve (env : Env) (inp : Inp) (src dst : ChainConfig)
    (address : String) (d : Nat) (amt tbal al : Int) (atx : String)
    (hdec : env.decimalsResult = Except.ok d)
    (hparse : parseUnits inp.amount d = Except.ok amt)
    (htb : env.tokenBalanceResult = Except.ok tbal)
    (htble : ¬ tbal < amt)
    (hal : env.allowanceResult = Except.ok al)
    (hlt : al < amt)
    (ha : env.approveResult = Except.ok atx)
    (haw : env.approveWaitResult = Except.ok ()) :
    tokenSteps env inp src dst address =
      ([Act.callDecimals, Act.callBalanceOf address,
        Act.callAllowance address src.nttManager,
        Act.submitApprove src.nttManager amt, Act.waitApprove] ++
          (prepareAndSubmit env inp dst address amt).1,
       (prepareAndSubmit env inp dst address amt).2) := by
  unfold tokenSteps
  simp [BM.bind_eq, BM.bind, callE, liftE, throwB, BM.pure_eq,
    hdec, hparse, htb, htble, hal, hlt, ha, haw]

/-- With the allowance already at least the parsed amount, the approval step
is skipped entirely. -/
theorem tokenSteps_pinned_noapprove (env : Env) (inp : Inp) (src dst : ChainConfig)
    (address : String) (d : Nat) (amt tbal al : Int)
    (hdec : env.decimalsResult = Except.ok d)
    (hparse : parseUnits inp.amount d = Except.ok amt)
    (htb : env.tokenBalanceResult = Except.ok tbal)
    (htble : ¬ tbal < amt)
    (hal : env.allowanceResult = Except.ok al)
    (hge : ¬ al < amt) :
    tokenSteps env inp src dst address =
      ([Act.callDecimals, Act.callBalanceOf address,
        Act.callAllowance address src.nttManager] ++
          (prepareAndSubmit env inp dst address amt).1,
       (prepareAndSubmit env inp dst address amt).2) := by
  unfold tokenSteps
  simp [BM.bind_eq, BM.bind, callE, liftE, throwB, BM.pure_eq,
    hdec, hparse, htb, htble, hal, hge]

theorem traceAll_switchNetwork {P : Act → Prop} (env : Env) (chainId : Nat)
    (hs : P (Act.walletSwitchChain chainId)) (ha : P (Act.walletAddChain chainId)) :
    TraceAll P (switchNetwork env chainId) := by
  unfold switchNetwork
  refine traceAll_ite (traceAll_throwB _) ?_
  cases env.switchChainResult with
  | ok _ =>
    intro c hc
    simp at hc
    exact hc ▸ hs
  | error e =>
    refine traceAll_ite ?_ ?_
    · cases env.addChainResult with
      | ok _ =>
        intro c hc
        simp at hc
        rcases hc with hc | hc
        · exact hc ▸ hs
        · exact hc ▸ ha
      | error e2 =>
        intro c hc
        simp at hc
        rcases hc with hc | hc
        · exact hc ▸ hs
        · exact hc ▸ ha
    · intro c hc
      simp at hc
      exact hc ▸ hs

theorem traceAll_submitAndConfirm {P : Act → Prop} (env : Env) (dst : ChainConfig)
    (amountWei : Int) (rcpt : String)
    (hsubmit : P (Act.submitTransfer amountWei (wormholeIdOf dst) rcpt rcpt false
      "0x01000100" 5000000000000000 900000))
    (hwait : P (Act.wait 2000)) (hconf : P Act.waitTransfer) :
    TraceAll P (submitAndConfirm env dst amountWei rcpt) := by
  unfold submitAndConfirm
  refine traceAll_seq ?_ (fun tx htx => ?_)
  · refine traceAll_retryOperation (fun k => ?_) hwait _ _
    refine traceAll_bind (traceAll_liftE _) (fun fee hfee => ?_)
    have hfe : parseEther CROSS_CHAIN_CONSTANTS.FEE = Except.ok fee := hfee
    rw [parseEther_FEE] at hfe
    injection hfe with hfe
    exact hfe ▸ traceAll_callE _ _ hsubmit
  · refine traceAll_seq (traceAll_callE _ _ hconf) (fun st hst => ?_)
    exact traceAll_ite (traceAll_pure _) (traceAll_pure _)

theorem traceAll_prepareAndSubmit {P : Act → Prop} (env : Env) (inp : Inp)
    (dst : ChainConfig) (address : String) (amountWei : Int)
    (hsubmit : ∀ rcpt, P (Act.submitTransfer amountWei (wormholeIdOf dst) rcpt rcpt false
      "0x01000100" 5000000000000000 900000))
    (hwait : P (Act.wait 2000)) (hconf : P Act.waitTransfer) :
    TraceAll P (prepareAndSubmit env inp dst address amountWei) := by
  unfold prepareAndSubmit
  refine traceAll_ite ?_ ?_
  · refine traceAll_ite (traceAll_pure _) ?_
    refine traceAll_ite (traceAll_pure _) ?_
    exact traceAll_submitAndConfirm env dst amountWei _ (hsubmit _) hwait hconf
  · refine traceAll_ite (traceAll_pure _) ?_
    exact traceAll_submitAndConfirm env dst amountWei _ (hsubmit _) hwait hconf

theorem traceAll_tokenSteps {P : Act → Prop} (env : Env) (inp : Inp)
    (src dst : ChainConfig) (address : String)
    (hdec : P Act.callDecimals) (hbal : P (Act.callBalanceOf address))
    (hallow : P (Act.callAllowance address src.nttManager))
    (happrove : ∀ amt, P (Act.submitApprove src.nttManager amt))
    (hawait : P Act.waitApprove)
    (hsubmit : ∀ amt rcpt, P (Act.submitTransfer amt (wormholeIdOf dst) rcpt rcpt false
      "0x01000100" 5000000000000000 900000))
    (hwait : P (Act.wait 2000)) (hconf : P Act.waitTransfer) :
    TraceAll P (tokenSteps env inp src dst address) := by
  unfold tokenSteps
  refine traceAll_seq (traceAll_callE _ _ hdec) (fun d hd => ?_)
  refine traceAll_seq (traceAll_liftE _) (fun amt hamt => ?_)
  refine traceAll_seq (traceAll_callE _ _ hbal) (fun tbal htbal => ?_)
  refine traceAll_seq ?_ (fun u hu => ?_)
  · exact traceAll_ite (traceAll_throwB _) (traceAll_pure _)
  refine traceAll_seq (traceAll_callE _ _ hallow) (fun al hal => ?_)
  refine traceAll_seq (traceAll_ite ?_ (traceAll_pure _)) (fun u2 hu2 => ?_)
  · refine traceAll_seq (traceAll_callE _ _ (happrove _)) (fun tx htx => ?_)
    exact traceAll_seq (traceAll_callE _ _ hawait) (fun w hw2 => traceAll_pure _)
  · exact traceAll_prepareAndSubmit env inp dst address amt (hsubmit amt) hwait hconf

theorem traceAll_bridgeBody {P : Act → Prop} (env : Env) (inp : Inp)
    (src dst : ChainConfig)
    (hnet : P Act.getNetwork) (hswitch : P (Act.walletSwitchChain src.chainId))
    (hadd : P (Act.walletAddChain src.chainId)) (hgas : P Act.getGasPrice)
    (haddr : P Act.getSignerAddress) (hbalr : ∀ s, P (Act.getBalance s))
    (hcode : P (Act.getCode src.nttManager)) (hready : P Act.callInitStatus)
    (hdec : P Act.callDecimals) (hbal : ∀ s, P (Act.callBalanceOf s))
    (hallow : ∀ s, P (Act.callAllowance s src.nttManager))
    (happrove : ∀ amt, P (Act.submitApprove src.nttManager amt))
    (hawait : P Act.waitApprove)
    (hsubmit : ∀ amt rcpt, P (Act.submitTransfer amt (wormholeIdOf dst) rcpt rcpt false
      "0x01000100" 5000000000000000 900000))
    (hwait : P (Act.wait 2000)) (hconf : P Act.waitTransfer) :
    TraceAll P (bridgeBody env inp src dst) := by
  unfold bridgeBody
  refine traceAll_seq ?_ (fun u hu => ?_)
  · exact traceAll_ite (traceAll_throwB _) (traceAll_pure _)
  refine traceAll_seq (traceAll_callE _ _ hnet) (fun cid hcid => ?_)
  refine traceAll_seq
    (traceAll_ite (traceAll_switchNetwork env src.chainId hswitch hadd) (traceAll_pure _))
    (fun u2 hu2 => ?_)
  refine traceAll_seq (traceAll_callE _ _ hgas) (fun g hg => ?_)
  refine traceAll_seq (traceAll_ite (traceAll_pure _) (traceAll_callE _ _ haddr))
    (fun address ha => ?_)
  refine traceAll_seq (traceAll_callE _ _ (hbalr _)) (fun b hb => ?_)
  refine traceAll_seq (traceAll_liftE _) (fun req hreq => ?_)
  refine traceAll_seq (traceAll_ite (traceAll_throwB _) (traceAll_pure _)) (fun u3 hu3 => ?_)
  refine traceAll_seq (traceAll_callE _ _ hcode) (fun cd hcd => ?_)
  refine traceAll_seq (traceAll_ite (traceAll_throwB _) (traceAll_pure _)) (fun u4 hu4 => ?_)
  refine traceAll_seq ?_ (fun u5 hu5 => ?_)
  · rw [checkManagerReady_eq]
    exact traceAll_callE _ _ hready
  · exact traceAll_tokenSteps env inp src dst address hdec (hbal _) (hallow _)
      happrove hawait hsubmit hwait hconf

/-- The properties C4 asserts of every submitted bridge `transfer` call: the
refund identifier equals the recipient, the queue flag is false, the
auxiliary instruction bytes are the fixed `"0x01000100"`, the attached value
is `parseEther("0.005")` wei and the gas limit is 900000. -/
def transferArgsOK : Act → Prop := fun a =>
  match a with
  | Act.submitTransfer _ _ recipient refundAddress shouldQueue ti v g =>
    refundAddress = recipient ∧ shouldQueue = false ∧ ti = "0x01000100" ∧
    v = 5000000000000000 ∧ g = 900000
  | _ => True

/-- C4: every bridge `transfer` call submitted by `performBridgeTransfer` —
for all user inputs and all outcomes of the external calls — carries exactly
the six positional arguments recorded in `Act.submitTransfer`, with the
refund identifier equal to the recipient identifier, the queue flag false,
the instruction bytes `"0x01000100"`, the attached native value
`parseEther("0.005") = 5000000000000000` wei and the gas limit 900000. -/
theorem transfer_call_fixed_args (env : Env) (inp : Inp) :
    ∀ a ∈ (performBridgeTransfer env inp).trace, transferArgsOK a := by
  intro a ha
  unfold performBridgeTransfer at ha
  rcases hsrc : inp.srcChainConfig with _ | src
  · rw [hsrc] at ha
    simp at ha
  rcases hdst : inp.dstChainConfig with _ | dst
  · rw [hsrc, hdst] at ha
    simp at ha
  rw [hsrc, hdst] at ha
  simp only [] at ha
  by_cases hguard : inp.sourceChain = "" ∨ inp.targetChain = "" ∨ inp.amount = "" ∨
      inp.walletConnected = false
  · rw [if_pos hguard] at ha
    simp at ha
  · rw [if_neg hguard, runOutOf_trace] at ha
    refine traceAll_bridgeBody env inp src dst trivial trivial trivial trivial trivial
      (fun s => trivial) trivial trivial trivial (fun s => trivial) (fun s => trivial)
      (fun amt => trivial) trivial (fun amt rcpt => ⟨rfl, rfl, rfl, rfl, rfl⟩)
      trivial trivial a ha

/-- A fully successful environment, used by the concrete witnesses: the
wallet is on BSC Testnet (chain 97), all reads succeed, the allowance is 0,
and every submission succeeds. -/
def envW : Env :=
  ⟨true, true, Except.ok 97, Except.ok (), Except.ok (), Except.ok 3, Except.ok "0xW",
   Except.ok 10000000000000000, Except.ok "0xdeadbeef", Except.ok true, Except.ok 18,
   Except.ok 1000000000000000000, Except.ok 0, Except.ok "0xA", Except.ok (),
   fun _ => Except.ok "0xT", Except.ok 1, fun _ => true⟩

/-- Concrete form inputs, used by the concrete witnesses: transfer 0.5 CCT
from BSC Testnet to Arbitrum Sepolia, destination address left empty. -/
def inpW : Inp :=
  ⟨"BSC Testnet", "Arbitrum Sepolia", "0.5", "", true, "0xAbCd",
   some bscTestnetConfig, some arbitrumSepoliaConfig, TStatus.idle⟩

/-- Witness for C4 at the transfer call actually submitted on a successful
concrete run. -/
theorem transfer_call_fixed_args_witness :
    transferArgsOK (Act.submitTransfer 500000000000000000 10003
      "0x000000000000000000000000abcd" "0x000000000000000000000000abcd" false
      "0x01000100" 5000000000000000 900000) :=
  transfer_call_fixed_args envW inpW _ (by decide)

/-- When the allowance is below the parsed amount, the approval submission is
in the token stage's trace whatever the approval's own outcome. -/
theorem submitApprove_mem_tokenSteps (env : Env) (inp : Inp) (src dst : ChainConfig)
    (address : String) (d : Nat) (amt tbal al : Int)
    (hdec : env.decimalsResult = Except.ok d)
    (hparse : parseUnits inp.amount d = Except.ok amt)
    (htb : env.tokenBalanceResult = Except.ok tbal)
    (htble : ¬ tbal < amt)
    (hal : env.allowanceResult = Except.ok al)
    (hlt : al < amt) :
    Act.submitApprove src.nttManager amt ∈ (tokenSteps env inp src dst address).1 := by
  unfold tokenSteps
  cases ha2 : env.approveResult with
  | ok atx =>
    cases haw : env.approveWaitResult with
    | ok u =>
      cases u
      simp [BM.bind_eq, BM.bind, callE, liftE, throwB, BM.pure_eq,
        hdec, hparse, htb, htble, hal, hlt, ha2, haw]
    | error e =>
      simp [BM.bind_eq, BM.bind, callE, liftE, throwB, BM.pure_eq,
        hdec, hparse, htb, htble, hal, hlt, ha2, haw]
  | error e =>
    simp [BM.bind_eq, BM.bind, callE, liftE, throwB, BM.pure_eq,
      hdec, hparse, htb, htble, hal, hlt, ha2]

/-- C3: once the run reaches the allowance check (all earlier probes
succeed, the token balance suffices), an approval transaction is submitted
if and only if the allowance read from the token contract is strictly less
than the parsed transfer amount; with sufficient allowance the approval step
is skipped and no approve transaction is ever submitted, whatever the rest
of the run does. -/
theorem approve_iff_allowance_insufficient (env : Env) (inp : Inp)
    (src dst : ChainConfig) (gp bal : Int) (code : String) (d : Nat)
    (amt tbal al : Int)
    (hsrc : inp.srcChainConfig = some src) (hdst : inp.dstChainConfig = some dst)
    (h1 : inp.sourceChain ≠ "") (h2 : inp.targetChain ≠ "") (h3 : inp.amount ≠ "")
    (h4 : inp.walletConnected = true)
    (hp : env.hasProvider = true)
    (hn : env.networkChainId = Except.ok src.chainId)
    (hg : env.gasPriceResult = Except.ok gp)
    (hw : inp.walletAddress ≠ "")
    (hb : env.ethBalanceResult = Except.ok bal)
    (hbfee : ¬ bal < 5000000000000000)
    (hc : env.codeResult = Except.ok code)
    (hclen : ¬ code.length ≤ 2)
    (hdec : env.decimalsResult = Except.ok d)
    (hparse : parseUnits inp.amount d = Except.ok amt)
    (htb : env.tokenBalanceResult = Except.ok tbal)
    (htble : ¬ tbal < amt)
    (hal : env.allowanceResult = Except.ok al) :
    ((∃ a ∈ (performBridgeTransfer env inp).trace, isApproveAct a = true) ↔ al < amt) := by
  rw [performBridgeTransfer_pinned env inp src dst gp bal code hsrc hdst h1 h2 h3 h4
    hp hn hg hw hb hbfee hc hclen, runOutOf_trace]
  constructor
  · intro hex
    by_contra hge
    obtain ⟨a, ha, happ⟩ := hex
    rw [tokenSteps_pinned_noapprove env inp src dst inp.walletAddress d amt tbal al
      hdec hparse htb htble hal hge] at ha
    simp only [List.mem_append, List.mem_cons, List.not_mem_nil, or_false] at ha
    rcases ha with (rfl | rfl | rfl | rfl | rfl) | (rfl | rfl | rfl) | ha
    · simp [isApproveAct] at happ
    · simp [isApproveAct] at happ
    · simp [isApproveAct] at happ
    · simp [isApproveAct] at happ
    · simp [isApproveAct] at happ
    · simp [isApproveAct] at happ
    · simp [isApproveAct] at happ
    · simp [isApproveAct] at happ
    · have hno := traceAll_prepareAndSubmit (P := fun x => isApproveAct x = false)
        env inp dst inp.walletAddress amt (fun _ => rfl) rfl rfl a ha
      rw [hno] at happ
      exact absurd happ (by simp)
  · intro hlt
    exact ⟨Act.submitApprove src.nttManager amt,
      List.mem_append_right _ (submitApprove_mem_tokenSteps env inp src dst
        inp.walletAddress d amt tbal al hdec hparse htb htble hal hlt), rfl⟩

/-- Witness for C3 on the concrete successful run (allowance 0, parsed
amount 0.5 CCT in wei). -/
theorem approve_iff_allowance_insufficient_witness :
    ((∃ a ∈ (performBridgeTransfer envW inpW).trace, isApproveAct a = true) ↔
      (0 : Int) < 500000000000000000) :=
  approve_iff_allowance_insufficient envW inpW bscTestnetConfig arbitrumSepoliaConfig
    3 10000000000000000 "0xdeadbeef" 18 500000000000000000 1000000000000000000 0
    rfl rfl (by decide) (by decide) (by decide) rfl rfl rfl rfl (by decide) rfl
    (by decide) rfl (by decide) rfl (by decide) rfl (by decide) rfl

/-- C5: if the wallet's native balance read is strictly below
`parseEther("0.005")`, the run throws the insufficient-balance error right
after the read: the flow ends in status "error" with that error in the
single handler, and the trace holds only the three reads performed so far —
in particular no approval and no transfer transaction was submitted. -/
theorem insufficient_native_balance_blocks (env : Env) (inp : Inp)
    (src dst : ChainConfig) (gp bal : Int)
    (hsrc : inp.srcChainConfig = some src) (hdst : inp.dstChainConfig = some dst)
    (h1 : inp.sourceChain ≠ "") (h2 : inp.targetChain ≠ "") (h3 : inp.amount ≠ "")
    (h4 : inp.walletConnected = true)
    (hp : env.hasProvider = true)
    (hn : env.networkChainId = Except.ok src.chainId)
    (hg : env.gasPriceResult = Except.ok gp)
    (hw : inp.walletAddress ≠ "")
    (hb : env.ethBalanceResult = Except.ok bal)
    (hlt : bal < 5000000000000000) :
    performBridgeTransfer env inp =
      ⟨TStatus.error, [Act.getNetwork, Act.getGasPrice, Act.getBalance inp.walletAddress],
        some (Err.insufficientNativeBalance bal)⟩ ∧
    ∀ a ∈ (performBridgeTransfer env inp).trace,
      isApproveAct a = false ∧ isTransferAct a = false := by
  have heq : performBridgeTransfer env inp =
      ⟨TStatus.error, [Act.getNetwork, Act.getGasPrice, Act.getBalance inp.walletAddress],
        some (Err.insufficientNativeBalance bal)⟩ := by
    unfold performBridgeTransfer
    rw [hsrc, hdst]
    simp only []
    rw [if_neg (by simp [h1, h2, h3, h4])]
    unfold bridgeBody
    simp [BM.bind_eq, BM.bind, callE, liftE, throwB, BM.pure_eq, runOutOf,
      parseEther_FEE, hp, hn, hg, hw, hb, hlt]
  refine ⟨heq, ?_⟩
  rw [heq]
  intro a ha
  simp only [List.mem_cons, List.not_mem_nil, or_false] at ha
  rcases ha with rfl | rfl | rfl <;> exact ⟨rfl, rfl⟩

/-- An environment identical to `envW` except that the native balance is 3
wei, below the required fee. -/
def envLow : Env := { envW with ethBalanceResult := Except.ok 3 }

/-- Witness for C5 on the concrete low-balance run. -/
theorem insufficient_native_balance_blocks_witness :
    performBridgeTransfer envLow inpW =
      ⟨TStatus.error, [Act.getNetwork, Act.getGasPrice, Act.getBalance inpW.walletAddress],
        some (Err.insufficientNativeBalance 3)⟩ ∧
    ∀ a ∈ (performBridgeTransfer envLow inpW).trace,
      isApproveAct a = false ∧ isTransferAct a = false :=
  insufficient_native_balance_blocks envLow inpW bscTestnetConfig arbitrumSepoliaConfig
    3 3 rfl rfl (by decide) (by decide) (by decide) rfl rfl rfl rfl (by decide) rfl
    (by decide)

/-- C9: the initialization check never blocks the transfer.  The whole run is
independent of the outcome of the bridge contract's `initialized()` call —
including a rejected call and a `false` result, whose locally thrown "not
initialized" error the surrounding inner catch swallows — and once the
pre-token probes succeed the run always continues to the token-decimals read
(and thence the balance, allowance and submission steps). -/
theorem initStatus_check_never_blocks (env : Env) (inp : Inp)
    (src dst : ChainConfig) (gp bal : Int) (code : String)
    (hsrc : inp.srcChainConfig = some src) (hdst : inp.dstChainConfig = some dst)
    (h1 : inp.sourceChain ≠ "") (h2 : inp.targetChain ≠ "") (h3 : inp.amount ≠ "")
    (h4 : inp.walletConnected = true)
    (hp : env.hasProvider = true)
    (hn : env.networkChainId = Except.ok src.chainId)
    (hg : env.gasPriceResult = Except.ok gp)
    (hw : inp.walletAddress ≠ "")
    (hb : env.ethBalanceResult = Except.ok bal)
    (hbfee : ¬ bal < 5000000000000000)
    (hc : env.codeResult = Except.ok code)
    (hclen : ¬ code.length ≤ 2) :
    (∀ r : Except Err Bool,
      performBridgeTransfer { env with initStatusResult := r } inp =
        performBridgeTransfer env inp) ∧
    Act.callDecimals ∈ (performBridgeTransfer env inp).trace := by
  constructor
  · intro r
    unfold performBridgeTransfer bridgeBody
    simp only [checkManagerReady_eq]
    rfl
  · rw [performBridgeTransfer_pinned env inp src dst gp bal code hsrc hdst h1 h2 h3 h4
      hp hn hg hw hb hbfee hc hclen, runOutOf_trace]
    refine List.mem_append_right _ ?_
    show Act.callDecimals ∈ (tokenSteps env inp src dst inp.walletAddress).1
    unfold tokenSteps
    exact mem_trace_bind_left (by simp [callE])

/-- Witness for C9: a rejected `initialized()` call changes nothing on the
concrete successful run, which reaches the decimals read. -/
theorem initStatus_check_never_blocks_witness :
    performBridgeTransfer { envW with initStatusResult := Except.error (Err.rpcError 7) } inpW =
      performBridgeTransfer envW inpW ∧
    Act.callDecimals ∈ (performBridgeTransfer envW inpW).trace :=
  ⟨(initStatus_check_never_blocks envW inpW bscTestnetConfig arbitrumSepoliaConfig
      3 10000000000000000 "0xdeadbeef" rfl rfl (by decide) (by decide) (by decide)
      rfl rfl rfl rfl (by decide) rfl (by decide) rfl (by decide)).1
    (Except.error (Err.rpcError 7)),
   (initStatus_check_never_blocks envW inpW bscTestnetConfig arbitrumSepoliaConfig
      3 10000000000000000 "0xdeadbeef" rfl rfl (by decide) (by decide) (by decide)
      rfl rfl rfl rfl (by decide) rfl (by decide) rfl (by decide)).2⟩

/-- C6: invalid destination address formats are rejected before submission.
Once the run reaches the recipient stage (all reads succeed, allowance is
sufficient), a Solana destination with an empty entered address ends in
status "warning", a Solana destination whose entered address fails the
base58 32-44 pattern ends in status "error", and an EVM destination with a
non-empty entered address failing `ethers.utils.isAddress` ends in status
"error" — in all three cases without any transfer submission in the trace. -/
theorem invalid_destination_rejected (env : Env) (inp : Inp)
    (src dst : ChainConfig) (gp bal : Int) (code : String) (d : Nat)
    (amt tbal al : Int)
    (hsrc : inp.srcChainConfig = some src) (hdst : inp.dstChainConfig = some dst)
    (h1 : inp.sourceChain ≠ "") (h2 : inp.targetChain ≠ "") (h3 : inp.amount ≠ "")
    (h4 : inp.walletConnected = true)
    (hp : env.hasProvider = true)
    (hn : env.networkChainId = Except.ok src.chainId)
    (hg : env.gasPriceResult = Except.ok gp)
    (hw : inp.walletAddress ≠ "")
    (hb : env.ethBalanceResult = Except.ok bal)
    (hbfee : ¬ bal < 5000000000000000)
    (hc : env.codeResult = Except.ok code)
    (hclen : ¬ code.length ≤ 2)
    (hdec : env.decimalsResult = Except.ok d)
    (hparse : parseUnits inp.amount d = Except.ok amt)
    (htb : env.tokenBalanceResult = Except.ok tbal)
    (htble : ¬ tbal < amt)
    (hal : env.allowanceResult = Except.ok al)
    (hge : ¬ al < amt) :
    (dst.isSolana = true → jsTrim inp.destinationAddress = "" →
      (performBridgeTransfer env inp).status = TStatus.warning ∧
      ∀ a ∈ (performBridgeTransfer env inp).trace, isTransferAct a = false) ∧
    (dst.isSolana = true → matchesSolanaPattern inp.destinationAddress = false →
      jsTrim inp.destinationAddress ≠ "" →
      (performBridgeTransfer env inp).status = TStatus.error ∧
      ∀ a ∈ (performBridgeTransfer env inp).trace, isTransferAct a = false) ∧
    (dst.isSolana = false → jsTrim inp.destinationAddress ≠ "" →
      env.isAddressFn inp.destinationAddress = false →
      (performBridgeTransfer env inp).status = TStatus.error ∧
      ∀ a ∈ (performBridgeTransfer env inp).trace, isTransferAct a = false) := by
  have hrun := performBridgeTransfer_pinned env inp src dst gp bal code hsrc hdst
    h1 h2 h3 h4 hp hn hg hw hb hbfee hc hclen
  have hts := tokenSteps_pinned_noapprove env inp src dst inp.walletAddress d amt
    tbal al hdec hparse htb htble hal hge
  refine ⟨fun hsol hemp => ?_, fun hsol hm hne => ?_, fun hsol hne hia => ?_⟩
  · have hpas : prepareAndSubmit env inp dst inp.walletAddress amt =
        ([], Except.ok TStatus.warning) := by
      unfold prepareAndSubmit
      simp [hsol, hemp, BM.pure_eq]
    rw [hrun, hts, hpas]
    refine ⟨by simp [runOutOf], ?_⟩
    intro a ha
    rw [runOutOf_trace] at ha
    simp only [List.append_nil, List.mem_append, List.mem_cons,
      List.not_mem_nil, or_false] at ha
    rcases ha with (rfl | rfl | rfl | rfl | rfl) | (rfl | rfl | rfl) <;> rfl
  · have hpas : prepareAndSubmit env inp dst inp.walletAddress amt =
        ([], Except.ok TStatus.error) := by
      unfold prepareAndSubmit
      simp [hsol, hne, hm, BM.pure_eq]
    rw [hrun, hts, hpas]
    refine ⟨by simp [runOutOf], ?_⟩
    intro a ha
    rw [runOutOf_trace] at ha
    simp only [List.append_nil, List.mem_append, List.mem_cons,
      List.not_mem_nil, or_false] at ha
    rcases ha with (rfl | rfl | rfl | rfl | rfl) | (rfl | rfl | rfl) <;> rfl
  · have hpas : prepareAndSubmit env inp dst inp.walletAddress amt =
        ([], Except.ok TStatus.error) := by
      unfold prepareAndSubmit
      simp [hsol, hne, hia, BM.pure_eq]
    rw [hrun, hts, hpas]
    refine ⟨by simp [runOutOf], ?_⟩
    intro a ha
    rw [runOutOf_trace] at ha
    simp only [List.append_nil, List.mem_append, List.mem_cons,
      List.not_mem_nil, or_false] at ha
    rcases ha with (rfl | rfl | rfl | rfl | rfl) | (rfl | rfl | rfl) <;> rfl

/-- Concrete inputs with a Solana destination and an invalid entered
address. -/
def inpSol : Inp :=
  ⟨"BSC Testnet", "Solana", "0.5", "zzz", true, "0xAbCd",
   some bscTestnetConfig, some solanaConfig, TStatus.idle⟩

/-- An environment identical to `envW` except that the allowance already
covers the amount. -/
def envAllow : Env := { envW with allowanceResult := Except.ok 1000000000000000000 }

/-- Witness for C6: the 3-character address "zzz" fails the Solana pattern,
so the concrete run ends in status "error" with no transfer submitted. -/
theorem invalid_destination_rejected_witness :
    (performBridgeTransfer envAllow inpSol).status = TStatus.error ∧
    ∀ a ∈ (performBridgeTransfer envAllow inpSol).trace, isTransferAct a = false :=
  (invalid_destination_rejected envAllow inpSol bscTestnetConfig solanaConfig
    3 10000000000000000 "0xdeadbeef" 18 500000000000000000 1000000000000000000
    1000000000000000000
    rfl rfl (by decide) (by decide) (by decide) rfl rfl rfl rfl (by decide) rfl
    (by decide) rfl (by decide) rfl (by decide) rfl (by decide) rfl
    (by decide)).2.1 rfl (by decide) (by decide)

/-- C7: only the transfer submission is wrapped in the automatic retry; a
failure in any other step is raised once (its action appears exactly once in
the trace, never re-invoked), reaches the single outer handler, and ends the
attempt in status "error".  The conjuncts cover, with each run's full
`RunOut` stated explicitly: (a) a failed network read; (b) a failed
non-4902 network switch; (c) a failed native-balance read; (d) a failed
token-balance read; (e) a failed approval submission; (f) a failed approval
confirmation wait; (g) a failed transfer confirmation wait after one
successful submission; and (h) the one retried step: when every transfer
submission fails, exactly four submissions with three 2000 ms waits appear
and the final error surfaces. -/
theorem non_submit_failures_terminal (env : Env) (inp : Inp)
    (src dst : ChainConfig)
    (hsrc : inp.srcChainConfig = some src) (hdst : inp.dstChainConfig = some dst)
    (h1 : inp.sourceChain ≠ "") (h2 : inp.targetChain ≠ "") (h3 : inp.amount ≠ "")
    (h4 : inp.walletConnected = true)
    (hp : env.hasProvider = true) :
    (∀ e : Err, env.networkChainId = Except.error e →
      performBridgeTransfer env inp = ⟨TStatus.error, [Act.getNetwork], some e⟩) ∧
    (∀ (e : Err) (cid : Nat), env.networkChainId = Except.ok cid →
      cid ≠ src.chainId → env.hasEthereum = true →
      env.switchChainResult = Except.error e → ¬ e.code = some 4902 →
      performBridgeTransfer env inp =
        ⟨TStatus.error, [Act.getNetwork, Act.walletSwitchChain src.chainId], some e⟩) ∧
    (∀ (e : Err) (gp : Int), env.networkChainId = Except.ok src.chainId →
      env.gasPriceResult = Except.ok gp → inp.walletAddress ≠ "" →
      env.ethBalanceResult = Except.error e →
      performBridgeTransfer env inp =
        ⟨TStatus.error,
         [Act.getNetwork, Act.getGasPrice, Act.getBalance inp.walletAddress],
         some e⟩) ∧
    (∀ (e : Err) (gp bal : Int) (code : String) (d : Nat) (amt : Int),
      env.networkChainId = Except.ok src.chainId →
      env.gasPriceResult = Except.ok gp → inp.walletAddress ≠ "" →
      env.ethBalanceResult = Except.ok bal → ¬ bal < 5000000000000000 →
      env.codeResult = Except.ok code → ¬ code.length ≤ 2 →
      env.decimalsResult = Except.ok d → parseUnits inp.amount d = Except.ok amt →
      env.tokenBalanceResult = Except.error e →
      performBridgeTransfer env inp =
        ⟨TStatus.error,
         [Act.getNetwork, Act.getGasPrice, Act.getBalance inp.walletAddress,
          Act.getCode src.nttManager, Act.callInitStatus, Act.callDecimals,
          Act.callBalanceOf inp.walletAddress],
         some e⟩) ∧
    (∀ (e : Err) (gp bal : Int) (code : String) (d : Nat) (amt tbal al : Int),
      env.networkChainId = Except.ok src.chainId →
      env.gasPriceResult = Except.ok gp → inp.walletAddress ≠ "" →
      env.ethBalanceResult = Except.ok bal → ¬ bal < 5000000000000000 →
      env.codeResult = Except.ok code → ¬ code.length ≤ 2 →
      env.decimalsResult = Except.ok d → parseUnits inp.amount d = Except.ok amt →
      env.tokenBalanceResult = Except.ok tbal → ¬ tbal < amt →
      env.allowanceResult = Except.ok al → al < amt →
      env.approveResult = Except.error e →
      performBridgeTransfer env inp =
        ⟨TStatus.error,
         [Act.getNetwork, Act.getGasPrice, Act.getBalance inp.walletAddress,
          Act.getCode src.nttManager, Act.callInitStatus, Act.callDecimals,
          Act.callBalanceOf inp.walletAddress,
          Act.callAllowance inp.walletAddress src.nttManager,
          Act.submitApprove src.nttManager amt],
         some e⟩) ∧
    (∀ (e : Err) (gp bal : Int) (code : String) (d : Nat) (amt tbal al : Int)
        (atx : String),
      env.networkChainId = Except.ok src.chainId →
      env.gasPriceResult = Except.ok gp → inp.walletAddress ≠ "" →
      env.ethBalanceResult = Except.ok bal → ¬ bal < 5000000000000000 →
      env.codeResult = Except.ok code → ¬ code.length ≤ 2 →
      env.decimalsResult = Except.ok d → parseUnits inp.amount d = Except.ok amt →
      env.tokenBalanceResult = Except.ok tbal → ¬ tbal < amt →
      env.allowanceResult = Except.ok al → al < amt →
      env.approveResult = Except.ok atx →
      env.approveWaitResult = Except.error e →
      performBridgeTransfer env inp =
        ⟨TStatus.error,
         [Act.getNetwork, Act.getGasPrice, Act.getBalance inp.walletAddress,
          Act.getCode src.nttManager, Act.callInitStatus, Act.callDecimals,
          Act.callBalanceOf inp.walletAddress,
          Act.callAllowance inp.walletAddress src.nttManager,
          Act.submitApprove src.nttManager amt, Act.waitApprove],
         some e⟩) ∧
    (∀ (e : Err) (gp bal : Int) (code : String) (d : Nat) (amt tbal al : Int)
        (tx : String),
      env.networkChainId = Except.ok src.chainId →
      env.gasPriceResult = Except.ok gp → inp.walletAddress ≠ "" →
      env.ethBalanceResult = Except.ok bal → ¬ bal < 5000000000000000 →
      env.codeResult = Except.ok code → ¬ code.length ≤ 2 →
      env.decimalsResult = Except.ok d → parseUnits inp.amount d = Except.ok amt →
      env.tokenBalanceResult = Except.ok tbal → ¬ tbal < amt →
      env.allowanceResult = Except.ok al → ¬ al < amt →
      dst.isSolana = false → jsTrim inp.destinationAddress = "" →
      env.transferResult 0 = Except.ok tx →
      env.transferWaitResult = Except.error e →
      performBridgeTransfer env inp =
        ⟨TStatus.error,
         [Act.getNetwork, Act.getGasPrice, Act.getBalance inp.walletAddress,
          Act.getCode src.nttManager, Act.callInitStatus, Act.callDecimals,
          Act.callBalanceOf inp.walletAddress,
          Act.callAllowance inp.walletAddress src.nttManager,
          Act.submitTransfer amt (wormholeIdOf dst)
            (prepareRecipientAddress inp.walletAddress)
            (prepareRecipientAddress inp.walletAddress) false "0x01000100"
            5000000000000000 900000,
          Act.waitTransfer],
         some e⟩) ∧
    (∀ (er : Nat → Err) (gp bal : Int) (code : String) (d : Nat) (amt tbal al : Int),
      env.networkChainId = Except.ok src.chainId →
      env.gasPriceResult = Except.ok gp → inp.walletAddress ≠ "" →
      env.ethBalanceResult = Except.ok bal → ¬ bal < 5000000000000000 →
      env.codeResult = Except.ok code → ¬ code.length ≤ 2 →
      env.decimalsResult = Except.ok d → parseUnits inp.amount d = Except.ok amt →
      env.tokenBalanceResult = Except.ok tbal → ¬ tbal < amt →
      env.allowanceResult = Except.ok al → ¬ al < amt →
      dst.isSolana = false → jsTrim inp.destinationAddress = "" →
      (∀ k, env.transferResult k = Except.error (er k)) →
      performBridgeTransfer env inp =
        ⟨TStatus.error,
         [Act.getNetwork, Act.getGasPrice, Act.getBalance inp.walletAddress,
          Act.getCode src.nttManager, Act.callInitStatus, Act.callDecimals,
          Act.callBalanceOf inp.walletAddress,
          Act.callAllowance inp.walletAddress src.nttManager,
          Act.submitTransfer amt (wormholeIdOf dst)
            (prepareRecipientAddress inp.walletAddress)
            (prepareRecipientAddress inp.walletAddress) false "0x01000100"
            5000000000000000 900000,
          Act.wait 2000,
          Act.submitTransfer amt (wormholeIdOf dst)
            (prepareRecipientAddress inp.walletAddress)
            (prepareRecipientAddress inp.walletAddress) false "0x01000100"
            5000000000000000 900000,
          Act.wait 2000,
          Act.submitTransfer amt (wormholeIdOf dst)
            (prepareRecipientAddress inp.walletAddress)
            (prepareRecipientAddress inp.walletAddress) false "0x01000100"
            5000000000000000 900000,
          Act.wait 2000,
          Act.submitTransfer amt (wormholeIdOf dst)
            (prepareRecipientAddress inp.walletAddress)
            (prepareRecipientAddress inp.walletAddress) false "0x01000100"
            5000000000000000 900000],
         some (er 3)⟩) := by
  have hguard : ¬ (inp.sourceChain = "" ∨ inp.targetChain = "" ∨ inp.amount = "" ∨
      inp.walletConnected = false) := by simp [h1, h2, h3, h4]
  refine ⟨?_, ?_, ?_, ?_, ?_, ?_, ?_, ?_⟩
  · intro e he
    unfold performBridgeTransfer
    rw [hsrc, hdst]
    simp only []
    rw [if_neg hguard]
    unfold bridgeBody
    simp [BM.bind_eq, BM.bind, callE, liftE, throwB, BM.pure_eq, runOutOf, hp, he]
  · intro e cid hcid hne heth hsw h4902
    unfold performBridgeTransfer
    rw [hsrc, hdst]
    simp only []
    rw [if_neg hguard]
    unfold bridgeBody switchNetwork
    simp [BM.bind_eq, BM.bind, callE, liftE, throwB, BM.pure_eq, runOutOf, hp,
      hcid, hne, heth, hsw, h4902]
  · intro e gp hn hg hw he
    unfold performBridgeTransfer
    rw [hsrc, hdst]
    simp only []
    rw [if_neg hguard]
    unfold bridgeBody
    simp [BM.bind_eq, BM.bind, callE, liftE, throwB, BM.pure_eq, runOutOf, hp,
      hn, hg, hw, he]
  · intro e gp bal code d amt hn hg hw hb hbfee hc hclen hdec hparse he
    rw [performBridgeTransfer_pinned env inp src dst gp bal code hsrc hdst
      h1 h2 h3 h4 hp hn hg hw hb hbfee hc hclen]
    unfold tokenSteps
    simp [BM.bind_eq, BM.bind, callE, liftE, throwB, BM.pure_eq, runOutOf,
      hdec, hparse, he]
  · intro e gp bal code d amt tbal al hn hg hw hb hbfee hc hclen hdec hparse
      htb htble hal hlt ha
    rw [performBridgeTransfer_pinned env inp src dst gp bal code hsrc hdst
      h1 h2 h3 h4 hp hn hg hw hb hbfee hc hclen]
    unfold tokenSteps
    simp [BM.bind_eq, BM.bind, callE, liftE, throwB, BM.pure_eq, runOutOf,
      hdec, hparse, htb, htble, hal, hlt, ha]
  · intro e gp bal code d amt tbal al atx hn hg hw hb hbfee hc hclen hdec hparse
      htb htble hal hlt ha haw
    rw [performBridgeTransfer_pinned env inp src dst gp bal code hsrc hdst
      h1 h2 h3 h4 hp hn hg hw hb hbfee hc hclen]
    unfold tokenSteps
    simp [BM.bind_eq, BM.bind, callE, liftE, throwB, BM.pure_eq, runOutOf,
      hdec, hparse, htb, htble, hal, hlt, ha, haw]
  · intro e gp bal code d amt tbal al tx hn hg hw hb hbfee hc hclen hdec hparse
      htb htble hal hge hsol hemp ht0 hwt
    rw [performBridgeTransfer_pinned env inp src dst gp bal code hsrc hdst
      h1 h2 h3 h4 hp hn hg hw hb hbfee hc hclen,
      tokenSteps_pinned_noapprove env inp src dst inp.walletAddress d amt tbal al
        hdec hparse htb htble hal hge]
    unfold prepareAndSubmit submitAndConfirm retryOperation
    simp [BM.bind_eq, BM.bind, callE, liftE, throwB, BM.pure_eq, runOutOf,
      parseEther_FEE, CROSS_CHAIN_CONSTANTS.GAS_LIMIT, hsol, hemp, ht0, hwt]
  · intro er gp bal code d amt tbal al hn hg hw hb hbfee hc hclen hdec hparse
      htb htble hal hge hsol hemp hres
    rw [performBridgeTransfer_pinned env inp src dst gp bal code hsrc hdst
      h1 h2 h3 h4 hp hn hg hw hb hbfee hc hclen,
      tokenSteps_pinned_noapprove env inp src dst inp.walletAddress d amt tbal al
        hdec hparse htb htble hal hge]
    unfold prepareAndSubmit submitAndConfirm
    simp [BM.bind_eq, BM.bind, callE, liftE, throwB, BM.pure_eq, runOutOf,
      parseEther_FEE, retryOperation, CROSS_CHAIN_CONSTANTS.TX_RETRY_COUNT,
      CROSS_CHAIN_CONSTANTS.GAS_LIMIT, hsol, hemp, hres 0, hres 1, hres 2, hres 3]

/-- An environment identical to `envAllow` except that every transfer
submission attempt is rejected. -/
def envXfail : Env :=
  { envAllow with transferResult := fun _ => Except.error (Err.rpcError 1) }

/-- Witness for C7, exercising the retried-submission conjunct: on a concrete
run where every transfer submission fails, exactly four submissions appear
with three 2000 ms waits between them, every other step appears once, and
the final error surfaces as status "error". -/
theorem non_submit_failures_terminal_witness :
    performBridgeTransfer envXfail inpW =
      ⟨TStatus.error,
       [Act.getNetwork, Act.getGasPrice, Act.getBalance inpW.walletAddress,
        Act.getCode bscTestnetConfig.nttManager, Act.callInitStatus, Act.callDecimals,
        Act.callBalanceOf inpW.walletAddress,
        Act.callAllowance inpW.walletAddress bscTestnetConfig.nttManager,
        Act.submitTransfer 500000000000000000 (wormholeIdOf arbitrumSepoliaConfig)
          (prepareRecipientAddress inpW.walletAddress)
          (prepareRecipientAddress inpW.walletAddress) false "0x01000100"
          5000000000000000 900000,
        Act.wait 2000,
        Act.submitTransfer 500000000000000000 (wormholeIdOf arbitrumSepoliaConfig)
          (prepareRecipientAddress inpW.walletAddress)
          (prepareRecipientAddress inpW.walletAddress) false "0x01000100"
          5000000000000000 900000,
        Act.wait 2000,
        Act.submitTransfer 500000000000000000 (wormholeIdOf arbitrumSepoliaConfig)
          (prepareRecipientAddress inpW.walletAddress)
          (prepareRecipientAddress inpW.walletAddress) false "0x01000100"
          5000000000000000 900000,
        Act.wait 2000,
        Act.submitTransfer 500000000000000000 (wormholeIdOf arbitrumSepoliaConfig)
          (prepareRecipientAddress inpW.walletAddress)
          (prepareRecipientAddress inpW.walletAddress) false "0x01000100"
          5000000000000000 900000],
       some (Err.rpcError 1)⟩ :=
  (non_submit_failures_terminal envXfail inpW bscTestnetConfig arbitrumSepoliaConfig
      rfl rfl (by decide) (by decide) (by decide) rfl rfl).2.2.2.2.2.2.2
    (fun _ => Err.rpcError 1) 3 10000000000000000 "0xdeadbeef" 18
    500000000000000000 1000000000000000000 1000000000000000000
    rfl rfl (by decide) rfl (by decide) rfl (by decide) rfl (by decide) rfl
    (by decide) rfl (by decide) rfl (by decide) (fun k => rfl)
